import Mathlib

/-!
Shallow embedding of `src/renderer/ShaderProgram.h` (Descent 3 renderer):
RAII wrappers around OpenGL shader objects, a streaming ("orphaning")
vertex buffer, and a uniform-location cache, together with proofs of the
spec's claims about them.

Driver state (the GL context) is modelled by explicit environments
(`GLUniformEnv`, `GLShaderEnv`, `GLProgramEnv`): each field records what
the corresponding `dgl*` call would report.  Thrown C++ exceptions are
modelled by `Except String` / `Option String` carrying the exception
message.  `size_t` / `GLint` quantities are modelled by `Nat` / `Int`;
the only place where machine-width wraparound is observable is the
`uintptr_t` pointer arithmetic in `vertexAttrib`, which is modelled
explicitly modulo `2 ^ 64`.
-/

set_option autoImplicit false

namespace ShaderProgramH

/-! ## OrphaningVertexBuffer (ShaderProgram.h lines 111-143)

`AddVertexData` binds the buffer, computes `dist = std::distance(begin, end)`,
orphans the store (a `dglBufferData` call with null data) and resets the
cursor when `nextVertex_ + dist >= kVertexCount`, then maps the byte range
`[start * sizeof(V), (start + dist) * sizeof(V))`, copies all `dist`
vertices into it, advances the cursor and returns `start`.

The cursor `nextVertex_` and `dist` are `size_t` values; the sum
`nextVertex_ + dist` cannot wrap for any realizable iterator range
(`std::distance` is a `ptrdiff_t`, so `dist < 2 ^ 63`, and the cursor is
either below `kVertexCount` or equal to the previous `dist`), so plain
`Nat` arithmetic is faithful here.
-/

/-- `OrphaningVertexBuffer::kVertexCount = 1 << 16`. -/
def kVertexCount : Nat := 1 <<< 16

/-- Everything one call to `OrphaningVertexBuffer::AddVertexData` does:
the returned start index, the new value of the cursor `nextVertex_`,
whether the backing store was orphaned (`dglBufferData` with null data),
the vertex range handed to `dglMapBufferRange`, and how many vertices
`std::copy` wrote. -/
structure AddResult where
  start : Nat
  nextVertex : Nat
  orphaned : Bool
  mappedOfs : Nat
  mappedLen : Nat
  copied : Nat
  deriving Repr, DecidableEq

/-- `OrphaningVertexBuffer::AddVertexData(begin, end)`, as a function of the
current cursor `nextVertex_` and of `dist = std::distance(begin, end)`. -/
def AddVertexData (nextVertex dist : Nat) : AddResult :=
  if nextVertex + dist ≥ kVertexCount then
    let nextVertex := 0
    let start := nextVertex
    { start := start
      nextVertex := nextVertex + dist
      orphaned := true
      mappedOfs := start
      mappedLen := dist
      copied := dist }
  else
    let start := nextVertex
    { start := start
      nextVertex := nextVertex + dist
      orphaned := false
      mappedOfs := start
      mappedLen := dist
      copied := dist }

end ShaderProgramH

namespace ShaderProgramH

/-- C2: on overflow (`cursor + count ≥ 65536`) the store is orphaned, the
cursor resets to zero and the write starts at zero; otherwise no orphaning
happens and the write starts at the old cursor; in both cases the call
returns the start of the written range and the cursor afterwards equals
that start plus the count. -/
theorem addVertexData_orphan_spec (nv dist : Nat) :
    (AddVertexData nv dist).nextVertex = (AddVertexData nv dist).start + dist
    ∧ (AddVertexData nv dist).mappedOfs = (AddVertexData nv dist).start
    ∧ (nv + dist ≥ kVertexCount →
        (AddVertexData nv dist).orphaned = true ∧ (AddVertexData nv dist).start = 0)
    ∧ (nv + dist < kVertexCount →
        (AddVertexData nv dist).orphaned = false ∧ (AddVertexData nv dist).start = nv) := by
  unfold AddVertexData
  split <;> rename_i h
  · exact ⟨rfl, rfl, fun _ => ⟨rfl, rfl⟩, fun h2 => absurd h (by omega)⟩
  · exact ⟨rfl, rfl, fun h2 => absurd h2 h, fun _ => ⟨rfl, rfl⟩⟩

theorem addVertexData_orphan_spec_witness :
    ((AddVertexData 65530 10).orphaned = true ∧ (AddVertexData 65530 10).start = 0)
    ∧ ((AddVertexData 3 10).orphaned = false ∧ (AddVertexData 3 10).start = 3) :=
  ⟨(addVertexData_orphan_spec 65530 10).2.2.1 (by decide),
   (addVertexData_orphan_spec 3 10).2.2.2 (by decide)⟩

/-- C5: `AddVertexData` is a total function (no throw, no error return) and
never truncates: every call maps a range of exactly `dist` vertices and
copies all `dist` supplied vertices, and when the capacity would be
exceeded it silently wraps (orphans the store and restarts at cursor 0)
instead of failing. -/
theorem addVertexData_total_no_truncation (nv dist : Nat) :
    (AddVertexData nv dist).mappedLen = dist
    ∧ (AddVertexData nv dist).copied = dist
    ∧ (nv + dist ≥ kVertexCount →
        (AddVertexData nv dist).orphaned = true
        ∧ (AddVertexData nv dist).start = 0
        ∧ (AddVertexData nv dist).copied = dist) := by
  unfold AddVertexData
  split <;> rename_i h
  · exact ⟨rfl, rfl, fun _ => ⟨rfl, rfl, rfl⟩⟩
  · exact ⟨rfl, rfl, fun h2 => absurd h2 h⟩

theorem addVertexData_total_no_truncation_witness :
    (AddVertexData 65535 2).orphaned = true
    ∧ (AddVertexData 65535 2).start = 0
    ∧ (AddVertexData 65535 2).copied = 2 :=
  (addVertexData_total_no_truncation 65535 2).2.2 (by decide)

/-- C8: whenever `dist ≤ kVertexCount`, the returned start index satisfies
`start + dist ≤ kVertexCount`, so the mapped write region lies inside the
fixed-capacity store. -/
theorem addVertexData_in_bounds (nv dist : Nat) (h : dist ≤ kVertexCount) :
    (AddVertexData nv dist).start + dist ≤ kVertexCount := by
  unfold AddVertexData
  split <;> rename_i hc <;> simp only [] <;> omega

theorem addVertexData_in_bounds_witness :
    (AddVertexData 60000 6000).start + 6000 ≤ kVertexCount :=
  addVertexData_in_bounds 60000 6000 (by decide)

/-! ## Uniform lookup and the name→location cache (lines 220-249, 259)

`uniform_cache_` is a `std::unordered_map<std::string, GLint>`, modelled as
an association list.  `getUniformId` first does `find`; on a miss it
`emplace`s `(name, dglGetUniformLocation(id_, name))` and reads the
emplaced value back (`it->second`); if that value is `-1` it throws
`"uniform " + name + " nonexistent or inactive"`, otherwise it returns it.
Each `setUniform*` member passes `getUniformId(name)` as the location
argument of the corresponding `dglUniform*` driver call; when
`getUniformId` throws, that driver call is not made.  The `glm::mat4x4` /
`GLfloat` value arguments never influence the cache or control flow and
floating-point payloads are outside the embedding, so the model keeps
only the `GLint` payload of `setUniform1i`. -/

/-- The driver's view of the linked program's uniforms: what
`dglGetUniformLocation` reports for each name (`-1` when the name is
absent or inactive in the linked program). -/
structure GLUniformEnv where
  getUniformLocation : String → Int

/-- `std::unordered_map<std::string, GLint> uniform_cache_`. -/
def UniformCache : Type := List (String × Int)

/-- `uniform_cache_.find(name)`. -/
def cacheFind : UniformCache → String → Option Int
  | [], _ => none
  | (n, l) :: rest, name => if n = name then some l else cacheFind rest name

/-- `uniform_cache_.emplace(name, loc)`: inserts only when the key is
absent (and `getUniformId` only calls it after a failed `find`). -/
def cacheEmplace (cache : UniformCache) (name : String) (loc : Int) : UniformCache :=
  match cacheFind cache name with
  | some _ => cache
  | none => (name, loc) :: cache

/-- Outcome of one `getUniformId` call: the cache afterwards, the returned
location or the thrown message, and whether `dglGetUniformLocation` was
invoked. -/
structure LookupResult where
  cache : UniformCache
  result : Except String Int
  queried : Bool

/-- `ShaderProgram::getUniformId` (lines 237-249).  On a cache miss the
emplaced value read back through the returned iterator is exactly the
`dglGetUniformLocation` result just inserted. -/
def getUniformId (env : GLUniformEnv) (cache : UniformCache) (name : String) :
    LookupResult :=
  match cacheFind cache name with
  | some loc => { cache := cache, result := .ok loc, queried := false }
  | none =>
    let loc := env.getUniformLocation name
    let cache := cacheEmplace cache name loc
    if loc ≠ -1 then
      { cache := cache, result := .ok loc, queried := true }
    else
      { cache := cache
        result := .error ("uniform " ++ name ++ " nonexistent or inactive")
        queried := true }

/-- A `dglUniform*` set call made by one of the `setUniform*` members,
with the location argument it received. -/
inductive GLSetCall where
  | uniformMatrix4fv (loc : Int)
  | uniform1i (loc : Int) (val : Int)
  | uniform1f (loc : Int)
  | uniform4f (loc : Int)
  deriving Repr, DecidableEq

/-- The location argument of a set call. -/
def GLSetCall.loc : GLSetCall → Int
  | .uniformMatrix4fv l => l
  | .uniform1i l _ => l
  | .uniform1f l => l
  | .uniform4f l => l

/-- Outcome of one `setUniform*` call: cache afterwards, thrown message if
any, whether the driver location query ran, and the driver set call made
(none when `getUniformId` threw). -/
structure SetOutcome where
  cache : UniformCache
  thrown : Option String
  queried : Bool
  setCall : Option GLSetCall

/-- `ShaderProgram::setUniformMat4f` (lines 220-222). -/
def setUniformMat4f (env : GLUniformEnv) (cache : UniformCache) (name : String) :
    SetOutcome :=
  let r := getUniformId env cache name
  match r.result with
  | .ok loc =>
    { cache := r.cache, thrown := none, queried := r.queried
      setCall := some (.uniformMatrix4fv loc) }
  | .error e =>
    { cache := r.cache, thrown := some e, queried := r.queried, setCall := none }

/-- `ShaderProgram::setUniform1i` (lines 224-226). -/
def setUniform1i (env : GLUniformEnv) (cache : UniformCache) (name : String)
    (val : Int) : SetOutcome :=
  let r := getUniformId env cache name
  match r.result with
  | .ok loc =>
    { cache := r.cache, thrown := none, queried := r.queried
      setCall := some (.uniform1i loc val) }
  | .error e =>
    { cache := r.cache, thrown := some e, queried := r.queried, setCall := none }

/-- `ShaderProgram::setUniform1f` (lines 228-230). -/
def setUniform1f (env : GLUniformEnv) (cache : UniformCache) (name : String) :
    SetOutcome :=
  let r := getUniformId env cache name
  match r.result with
  | .ok loc =>
    { cache := r.cache, thrown := none, queried := r.queried
      setCall := some (.uniform1f loc) }
  | .error e =>
    { cache := r.cache, thrown := some e, queried := r.queried, setCall := none }

/-- `ShaderProgram::setUniform4fv` (lines 232-234); the four `GLfloat`
arguments are not modelled. -/
def setUniform4fv (env : GLUniformEnv) (cache : UniformCache) (name : String) :
    SetOutcome :=
  let r := getUniformId env cache name
  match r.result with
  | .ok loc =>
    { cache := r.cache, thrown := none, queried := r.queried
      setCall := some (.uniform4f loc) }
  | .error e =>
    { cache := r.cache, thrown := some e, queried := r.queried, setCall := none }

/-- A uniform environment in which every name is absent or inactive. -/
def constAbsent : GLUniformEnv := ⟨fun _ => -1⟩

/-! ### Basic lemmas about the cache and `getUniformId` -/

theorem cacheFind_cons_self (rest : UniformCache) (name : String) (loc : Int) :
    cacheFind ((name, loc) :: rest) name = some loc := by
  simp [cacheFind]

theorem getUniformId_hit (env : GLUniformEnv) (cache : UniformCache) (name : String)
    (loc : Int) (h : cacheFind cache name = some loc) :
    getUniformId env cache name = { cache := cache, result := .ok loc, queried := false } := by
  unfold getUniformId
  rw [h]

theorem getUniformId_miss_absent (env : GLUniformEnv) (cache : UniformCache)
    (name : String) (hmiss : cacheFind cache name = none)
    (habs : env.getUniformLocation name = -1) :
    getUniformId env cache name =
      { cache := (name, -1) :: cache
        result := .error ("uniform " ++ name ++ " nonexistent or inactive")
        queried := true } := by
  unfold getUniformId
  rw [hmiss]
  simp [cacheEmplace, hmiss, habs]

theorem getUniformId_miss_present (env : GLUniformEnv) (cache : UniformCache)
    (name : String) (hmiss : cacheFind cache name = none)
    (hloc : env.getUniformLocation name ≠ -1) :
    getUniformId env cache name =
      { cache := (name, env.getUniformLocation name) :: cache
        result := .ok (env.getUniformLocation name)
        queried := true } := by
  unfold getUniformId
  rw [hmiss]
  simp [cacheEmplace, hmiss, hloc]

/-! ### Sequences of `setUniform*` calls on one `ShaderProgram`

`uniform_cache_` is a member, so its state threads through every
`setUniform*` call on the same object, whether or not the call threw. -/

/-- One `setUniform*` call in a client call sequence (name and, for
`setUniform1i`, the `GLint` value; floating-point payloads are not
modelled). -/
inductive SetOp where
  | mat4f (name : String)
  | i1 (name : String) (val : Int)
  | f1 (name : String)
  | f4 (name : String)
  deriving Repr, DecidableEq

/-- The uniform name argument of a call. -/
def SetOp.uniformName : SetOp → String
  | .mat4f n => n
  | .i1 n _ => n
  | .f1 n => n
  | .f4 n => n

/-- Dispatch one call to the corresponding member function. -/
def applyOp (env : GLUniformEnv) (cache : UniformCache) : SetOp → SetOutcome
  | .mat4f n => setUniformMat4f env cache n
  | .i1 n v => setUniform1i env cache n v
  | .f1 n => setUniform1f env cache n
  | .f4 n => setUniform4fv env cache n

/-- What one call in a sequence did: which name it used, whether it ran
`dglGetUniformLocation`, what it threw, and which driver set call it made. -/
structure OpRecord where
  name : String
  queried : Bool
  thrown : Option String
  setCall : Option GLSetCall
  deriving Repr, DecidableEq

/-- Run a sequence of `setUniform*` calls on one `ShaderProgram`, threading
the member cache through and recording what each call did. -/
def runOps (env : GLUniformEnv) : UniformCache → List SetOp → UniformCache × List OpRecord
  | cache, [] => (cache, [])
  | cache, op :: rest =>
    let o := applyOp env cache op
    let r := runOps env o.cache rest
    (r.1,
     { name := op.uniformName, queried := o.queried, thrown := o.thrown
       setCall := o.setCall } :: r.2)

/-- Number of calls in a record list that queried the driver for `name`. -/
def queryCount (recs : List OpRecord) (name : String) : Nat :=
  recs.countP (fun r => r.name == name && r.queried)

/-- Every cached location is the driver's location for its name. -/
def CacheCoherent (env : GLUniformEnv) (cache : UniformCache) : Prop :=
  ∀ name loc, cacheFind cache name = some loc → loc = env.getUniformLocation name

theorem cacheFind_cons (k : String) (l : Int) (rest : UniformCache) (q : String) :
    cacheFind ((k, l) :: rest) q = if k = q then some l else cacheFind rest q := rfl

theorem cacheCoherent_nil (env : GLUniformEnv) : CacheCoherent env [] := by
  intro n l h
  simp [cacheFind] at h

theorem cacheCoherent_cons (env : GLUniformEnv) (cache : UniformCache) (name : String)
    (h : CacheCoherent env cache) :
    CacheCoherent env ((name, env.getUniformLocation name) :: cache) := by
  intro n l hf
  rw [cacheFind_cons] at hf
  by_cases hn : name = n
  · subst hn
    simp at hf
    omega
  · rw [if_neg hn] at hf
    exact h n l hf

theorem getUniformId_coherent (env : GLUniformEnv) (cache : UniformCache)
    (name : String) (h : CacheCoherent env cache) :
    CacheCoherent env (getUniformId env cache name).cache := by
  rcases hf : cacheFind cache name with _ | loc
  · by_cases hl : env.getUniformLocation name = -1
    · rw [getUniformId_miss_absent env cache name hf hl]
      have := cacheCoherent_cons env cache name h
      rwa [hl] at this
    · rw [getUniformId_miss_present env cache name hf hl]
      exact cacheCoherent_cons env cache name h
  · rw [getUniformId_hit env cache name loc hf]
    exact h

theorem getUniformId_ok_loc (env : GLUniformEnv) (cache : UniformCache)
    (name : String) (loc : Int) (h : CacheCoherent env cache)
    (hok : (getUniformId env cache name).result = .ok loc) :
    loc = env.getUniformLocation name := by
  rcases hf : cacheFind cache name with _ | loc0
  · by_cases hl : env.getUniformLocation name = -1
    · rw [getUniformId_miss_absent env cache name hf hl] at hok
      exact absurd hok (by simp)
    · rw [getUniformId_miss_present env cache name hf hl] at hok
      simp at hok
      omega
  · rw [getUniformId_hit env cache name loc0 hf] at hok
    simp at hok
    have := h name loc0 hf
    omega

theorem getUniformId_queried_iff (env : GLUniformEnv) (cache : UniformCache)
    (name : String) :
    (getUniformId env cache name).queried = true ↔ cacheFind cache name = none := by
  rcases hf : cacheFind cache name with _ | loc
  · by_cases hl : env.getUniformLocation name = -1
    · rw [getUniformId_miss_absent env cache name hf hl]
      simp
    · rw [getUniformId_miss_present env cache name hf hl]
      simp
  · rw [getUniformId_hit env cache name loc hf]
    simp

theorem getUniformId_cache_isSome (env : GLUniformEnv) (cache : UniformCache)
    (name : String) :
    (cacheFind (getUniformId env cache name).cache name).isSome := by
  rcases hf : cacheFind cache name with _ | loc
  · by_cases hl : env.getUniformLocation name = -1
    · rw [getUniformId_miss_absent env cache name hf hl]
      simp [cacheFind_cons_self]
    · rw [getUniformId_miss_present env cache name hf hl]
      simp [cacheFind_cons_self]
  · rw [getUniformId_hit env cache name loc hf]
    simp [hf]

theorem getUniformId_cache_mono (env : GLUniformEnv) (cache : UniformCache)
    (name q : String) (h : (cacheFind cache q).isSome) :
    (cacheFind (getUniformId env cache name).cache q).isSome := by
  rcases hf : cacheFind cache name with _ | loc
  · by_cases hl : env.getUniformLocation name = -1
    · rw [getUniformId_miss_absent env cache name hf hl]
      rw [cacheFind_cons]
      split <;> simp [h]
    · rw [getUniformId_miss_present env cache name hf hl]
      rw [cacheFind_cons]
      split <;> simp [h]
  · rw [getUniformId_hit env cache name loc hf]
    exact h

theorem applyOp_spec (env : GLUniformEnv) (cache : UniformCache) (op : SetOp) :
    (applyOp env cache op).cache = (getUniformId env cache op.uniformName).cache
    ∧ (applyOp env cache op).queried = (getUniformId env cache op.uniformName).queried
    ∧ ∀ c, (applyOp env cache op).setCall = some c →
        (getUniformId env cache op.uniformName).result = .ok c.loc := by
  rcases hf : cacheFind cache op.uniformName with _ | loc
  · by_cases hl : env.getUniformLocation op.uniformName = -1
    · have h := getUniformId_miss_absent env cache op.uniformName hf hl
      cases op <;>
        simp_all [applyOp, SetOp.uniformName, setUniformMat4f, setUniform1i,
          setUniform1f, setUniform4fv, GLSetCall.loc]
    · have h := getUniformId_miss_present env cache op.uniformName hf hl
      cases op <;>
        simp_all [applyOp, SetOp.uniformName, setUniformMat4f, setUniform1i,
          setUniform1f, setUniform4fv, GLSetCall.loc]
  · have h := getUniformId_hit env cache op.uniformName loc hf
    cases op <;>
      simp_all [applyOp, SetOp.uniformName, setUniformMat4f, setUniform1i,
        setUniform1f, setUniform4fv, GLSetCall.loc]

theorem runOps_invariant (env : GLUniformEnv) (ops : List SetOp) :
    ∀ cache : UniformCache, CacheCoherent env cache →
      CacheCoherent env (runOps env cache ops).1
      ∧ (∀ q, (cacheFind cache q).isSome = true →
          (cacheFind (runOps env cache ops).1 q).isSome = true)
      ∧ (∀ name, queryCount (runOps env cache ops).2 name ≤
          if (cacheFind cache name).isSome = true then 0 else 1)
      ∧ (∀ r ∈ (runOps env cache ops).2, ∀ c, r.setCall = some c →
          c.loc = env.getUniformLocation r.name) := by
  induction ops with
  | nil =>
    intro cache hc
    refine ⟨hc, fun q h => h, fun name => ?_, by simp [runOps]⟩
    simp only [runOps, queryCount, List.countP_nil]
    split <;> omega
  | cons op rest ih =>
    intro cache hc
    have hspec := applyOp_spec env cache op
    have hcoh : CacheCoherent env (applyOp env cache op).cache := by
      rw [hspec.1]
      exact getUniformId_coherent env cache op.uniformName hc
    have IH := ih (applyOp env cache op).cache hcoh
    simp only [runOps]
    refine ⟨IH.1, ?_, ?_, ?_⟩
    · intro q hq
      apply IH.2.1
      rw [hspec.1]
      exact getUniformId_cache_mono env cache op.uniformName q hq
    · intro name
      have hrest := IH.2.2.1 name
      simp only [queryCount, List.countP_cons] at hrest ⊢
      by_cases hs : (cacheFind cache name).isSome = true
      · have hs' : (cacheFind (applyOp env cache op).cache name).isSome = true := by
          rw [hspec.1]
          exact getUniformId_cache_mono env cache op.uniformName name hs
        rw [if_pos hs'] at hrest
        have hp : (op.uniformName == name && (applyOp env cache op).queried) = false := by
          by_cases hn : op.uniformName = name
          · subst hn
            have hq : (applyOp env cache op).queried = false := by
              rw [hspec.2.1]
              rcases hfind : cacheFind cache op.uniformName with _ | l
              · rw [hfind] at hs
                simp at hs
              · rw [getUniformId_hit env cache op.uniformName l hfind]
            simp [hq]
          · simp [hn]
        rw [if_pos hs, hp]
        simp only [Bool.false_eq_true, if_false]
        omega
      · rw [if_neg hs]
        by_cases hq : (op.uniformName == name && (applyOp env cache op).queried) = true
        · have hn : op.uniformName = name := by
            have h2 := hq
            simp only [Bool.and_eq_true, beq_iff_eq] at h2
            exact h2.1
          have hs' : (cacheFind (applyOp env cache op).cache name).isSome = true := by
            rw [hspec.1, ← hn]
            exact getUniformId_cache_isSome env cache op.uniformName
          rw [if_pos hs'] at hrest
          rw [hq]
          simp only [if_true]
          omega
        · have hq' : (op.uniformName == name && (applyOp env cache op).queried)
              = false := by
            simpa using hq
          rw [hq']
          simp only [Bool.false_eq_true, if_false]
          have hone : (if (cacheFind (applyOp env cache op).cache name).isSome = true
              then 0 else 1) ≤ 1 := by
            split <;> omega
          omega
    · intro r hr c hcall
      simp only [List.mem_cons] at hr
      rcases hr with rfl | hr
      · have hok := hspec.2.2 c hcall
        exact getUniformId_ok_loc env cache op.uniformName c.loc hc hok
      · exact IH.2.2.2 r hr c hcall

end ShaderProgramH

namespace ShaderProgramH

/-- C1 counterexample: in a program where every uniform name is absent
(`dglGetUniformLocation` reports `-1`), the first `setUniform1i` call for
`"u"` throws, but the repeated call with the same name does not throw —
it silently passes the cached `-1` to `dglUniform1i` — so the failure is
not permanent/non-retryable as the claim states. -/
theorem setUniform_absent_retry_not_failing :
    (setUniform1i constAbsent [] "u" 5).thrown
        = some "uniform u nonexistent or inactive"
    ∧ (setUniform1i constAbsent (setUniform1i constAbsent [] "u" 5).cache "u" 5).thrown
        = none
    ∧ (setUniform1i constAbsent (setUniform1i constAbsent [] "u" 5).cache "u" 5).setCall
        = some (.uniform1i (-1) 5) := by
  refine ⟨?_, ?_, ?_⟩ <;> decide

/-- C1 (amended): for a uniform name that is absent or inactive (the driver
reports location `-1`), a `setUniform*` call made while the name is not yet
cached throws (with the fixed message) and caches `name → -1`; but the
failure is not permanent: once `-1` is cached, a repeated call with the
same name does not throw and instead passes the sentinel `-1` to the
driver's set call. -/
theorem setUniform_absent_first_throws_then_cached (env : GLUniformEnv)
    (cache : UniformCache) (name : String) (v : Int)
    (habs : env.getUniformLocation name = -1) :
    (cacheFind cache name = none →
      (setUniformMat4f env cache name).thrown
          = some ("uniform " ++ name ++ " nonexistent or inactive")
      ∧ (setUniform1i env cache name v).thrown
          = some ("uniform " ++ name ++ " nonexistent or inactive")
      ∧ (setUniform1f env cache name).thrown
          = some ("uniform " ++ name ++ " nonexistent or inactive")
      ∧ (setUniform4fv env cache name).thrown
          = some ("uniform " ++ name ++ " nonexistent or inactive")
      ∧ cacheFind (setUniformMat4f env cache name).cache name = some (-1))
    ∧ (cacheFind cache name = some (-1) →
      (setUniformMat4f env cache name).thrown = none
      ∧ (setUniform1i env cache name v).thrown = none
      ∧ (setUniform1f env cache name).thrown = none
      ∧ (setUniform4fv env cache name).thrown = none
      ∧ (setUniform1i env cache name v).setCall = some (.uniform1i (-1) v)) := by
  constructor
  · intro hmiss
    have h := getUniformId_miss_absent env cache name hmiss habs
    refine ⟨?_, ?_, ?_, ?_, ?_⟩ <;>
      simp [setUniformMat4f, setUniform1i, setUniform1f, setUniform4fv, h,
            cacheFind_cons_self]
  · intro hhit
    have h := getUniformId_hit env cache name (-1) hhit
    refine ⟨?_, ?_, ?_, ?_, ?_⟩ <;>
      simp [setUniformMat4f, setUniform1i, setUniform1f, setUniform4fv, h]

theorem setUniform_absent_first_throws_then_cached_witness :
    ((setUniformMat4f constAbsent [] "u").thrown
        = some "uniform u nonexistent or inactive"
      ∧ (setUniform1i constAbsent [] "u" 7).thrown
        = some "uniform u nonexistent or inactive"
      ∧ (setUniform1f constAbsent [] "u").thrown
        = some "uniform u nonexistent or inactive"
      ∧ (setUniform4fv constAbsent [] "u").thrown
        = some "uniform u nonexistent or inactive"
      ∧ cacheFind (setUniformMat4f constAbsent [] "u").cache "u" = some (-1))
    ∧ ((setUniformMat4f constAbsent [("u", -1)] "u").thrown = none
      ∧ (setUniform1i constAbsent [("u", -1)] "u" 7).thrown = none
      ∧ (setUniform1f constAbsent [("u", -1)] "u").thrown = none
      ∧ (setUniform4fv constAbsent [("u", -1)] "u").thrown = none
      ∧ (setUniform1i constAbsent [("u", -1)] "u" 7).setCall
          = some (.uniform1i (-1) 7)) :=
  ⟨(setUniform_absent_first_throws_then_cached constAbsent [] "u" 7 rfl).1 (by decide),
   (setUniform_absent_first_throws_then_cached constAbsent [("u", -1)] "u" 7 rfl).2
     (by decide)⟩

/-- C9: when `getUniformId` takes its error path for an absent or inactive
name, the cache is mutated before the throw — the entry `name → -1` is
inserted — and every subsequent lookup of the same name is a cache hit
that returns `-1` without throwing and without querying the driver; the
sentinel `-1` is then passed as the location of the driver's set call. -/
theorem getUniformId_error_caches_sentinel (env : GLUniformEnv)
    (cache : UniformCache) (name : String)
    (habs : env.getUniformLocation name = -1)
    (hmiss : cacheFind cache name = none) :
    (getUniformId env cache name).result
        = .error ("uniform " ++ name ++ " nonexistent or inactive")
    ∧ cacheFind (getUniformId env cache name).cache name = some (-1)
    ∧ (∀ cache2, cacheFind cache2 name = some (-1) →
        (getUniformId env cache2 name).result = .ok (-1)
        ∧ (getUniformId env cache2 name).queried = false
        ∧ ∀ v, (setUniform1i env cache2 name v).setCall
            = some (.uniform1i (-1) v)) := by
  have h := getUniformId_miss_absent env cache name hmiss habs
  refine ⟨by rw [h], by rw [h]; exact cacheFind_cons_self cache name (-1), ?_⟩
  intro cache2 h2
  have hh := getUniformId_hit env cache2 name (-1) h2
  exact ⟨by rw [hh], by rw [hh], fun v => by simp [setUniform1i, hh]⟩

/-- C4: the name→location cache is populated lazily: across any sequence
of `setUniform*` calls on one `ShaderProgram` starting from an empty
cache, `dglGetUniformLocation` is invoked at most once per uniform name,
and every location passed to a driver set call for a name equals the
driver's location for that name (so repeated lookups are served from the
cache and yield the same location). -/
theorem uniform_cache_single_query (env : GLUniformEnv) (ops : List SetOp)
    (name : String) :
    queryCount (runOps env [] ops).2 name ≤ 1
    ∧ ∀ r ∈ (runOps env [] ops).2, ∀ c, r.setCall = some c →
        c.loc = env.getUniformLocation r.name := by
  have h := runOps_invariant env ops [] (cacheCoherent_nil env)
  refine ⟨?_, h.2.2.2⟩
  have hb := h.2.2.1 name
  simpa [cacheFind] using hb

theorem uniform_cache_single_query_witness :
    queryCount (runOps ⟨fun _ => 3⟩ [] [.i1 "u" 5, .i1 "u" 6]).2 "u" ≤ 1
    ∧ GLSetCall.loc (.uniform1i 3 6) = 3 :=
  ⟨(uniform_cache_single_query ⟨fun _ => 3⟩ [.i1 "u" 5, .i1 "u" 6] "u").1,
   (uniform_cache_single_query ⟨fun _ => 3⟩ [.i1 "u" 5, .i1 "u" 6] "u").2
     ⟨"u", false, none, some (.uniform1i 3 6)⟩ (by decide) (.uniform1i 3 6) rfl⟩

theorem getUniformId_error_caches_sentinel_witness :
    ((getUniformId constAbsent [] "u").result
        = .error "uniform u nonexistent or inactive"
      ∧ cacheFind (getUniformId constAbsent [] "u").cache "u" = some (-1))
    ∧ ((getUniformId constAbsent [("u", -1)] "u").result = .ok (-1)
      ∧ (getUniformId constAbsent [("u", -1)] "u").queried = false
      ∧ (setUniform1i constAbsent [("u", -1)] "u" 9).setCall
          = some (.uniform1i (-1) 9)) :=
  ⟨⟨(getUniformId_error_caches_sentinel constAbsent [] "u" rfl (by decide)).1,
    (getUniformId_error_caches_sentinel constAbsent [] "u" rfl (by decide)).2.1⟩,
   by
    have h := (getUniformId_error_caches_sentinel constAbsent [] "u" rfl
      (by decide)).2.2 [("u", -1)] (by decide)
    exact ⟨h.1, h.2.1, h.2.2 9⟩⟩

end ShaderProgramH

namespace ShaderProgramH

/-! ## `vertexAttrib` and pointer-to-member arithmetic (lines 31-51)

`vertexAttrib` default-constructs an `EnclosingType e` (at whatever
address the compiler places it) and computes the member's byte offset as
`reinterpret_cast<uintptr_t>(&(e.*member)) - reinterpret_cast<uintptr_t>(&e)`.
Addresses are `uintptr_t` values, i.e. naturals modulo `2 ^ 64`; a
pointer-to-member is modelled by the member's byte offset within the
object, and `&(e.*member)` is the object's base address plus that
offset. -/

/-- `uintptr_t` arithmetic is modulo `2 ^ 64`. -/
def UINTPTR_MOD : Nat := 2 ^ 64

/-- A pointer-to-member `MemberType EnclosingType::*`, identified by the
member's byte offset within the enclosing object. -/
structure MemberPtr where
  byteOffset : Nat
  deriving Repr, DecidableEq

/-- `reinterpret_cast<uintptr_t>(&(e.*member))` for an object whose base
address is `base`. -/
def memberAddr (base : Nat) (m : MemberPtr) : Nat :=
  (base + m.byteOffset) % UINTPTR_MOD

/-- Wrapping `uintptr_t` subtraction `a - b`. -/
def uptrSub (a b : Nat) : Nat :=
  (a % UINTPTR_MOD + (UINTPTR_MOD - b % UINTPTR_MOD)) % UINTPTR_MOD

/-- `VertexAttrib<E>` (lines 31-39); `GLint size`, `GLenum type`,
`GLboolean normalized`, `uintptr_t offset`, `std::string name`. -/
structure VertexAttrib where
  size : Int
  type : Nat
  normalized : Bool
  offset : Nat
  name : String

/-- `vertexAttrib` (lines 41-51), for a default-constructed instance at
address `base`. -/
def vertexAttrib (base : Nat) (size : Int) (type : Nat) (normalized : Bool)
    (member : MemberPtr) (name : String) : VertexAttrib :=
  { size := size
    type := type
    normalized := normalized
    offset := uptrSub (memberAddr base member) base
    name := name }

/-- C6: for any member of the vertex type (any object base address in the
address space, any member offset such that the member lies in the address
space), `vertexAttrib` returns a `VertexAttrib` whose `offset` equals the
member's byte offset within the enclosing type and whose `size`, `type`,
`normalized` and `name` fields are the arguments unchanged. -/
theorem vertexAttrib_spec (base : Nat) (size : Int) (type : Nat)
    (normalized : Bool) (member : MemberPtr) (name : String)
    (hbase : base < UINTPTR_MOD)
    (hfit : base + member.byteOffset < UINTPTR_MOD) :
    (vertexAttrib base size type normalized member name).offset = member.byteOffset
    ∧ (vertexAttrib base size type normalized member name).size = size
    ∧ (vertexAttrib base size type normalized member name).type = type
    ∧ (vertexAttrib base size type normalized member name).normalized = normalized
    ∧ (vertexAttrib base size type normalized member name).name = name := by
  refine ⟨?_, rfl, rfl, rfl, rfl⟩
  simp only [vertexAttrib, uptrSub, memberAddr, UINTPTR_MOD] at *
  omega

theorem vertexAttrib_spec_witness :
    (vertexAttrib 4096 4 5126 false ⟨12⟩ "position").offset = 12
    ∧ (vertexAttrib 4096 4 5126 false ⟨12⟩ "position").size = 4
    ∧ (vertexAttrib 4096 4 5126 false ⟨12⟩ "position").type = 5126
    ∧ (vertexAttrib 4096 4 5126 false ⟨12⟩ "position").normalized = false
    ∧ (vertexAttrib 4096 4 5126 false ⟨12⟩ "position").name = "position" :=
  vertexAttrib_spec 4096 4 5126 false ⟨12⟩ "position" (by decide) (by decide)

end ShaderProgramH

namespace ShaderProgramH

/-! ## `Shader` and `ShaderProgram` construction (lines 145-204) -/

/-- `GL_TRUE`. -/
def GL_TRUE : Int := 1

/-- The driver's responses to the calls `Shader::Shader` makes: the handle
`dglCreateShader` returns, the `GL_COMPILE_STATUS` value `dglGetShaderiv`
reports, and the log text `dglGetShaderInfoLog` writes (already truncated
to the 1024-byte buffer by the driver contract). -/
structure GLShaderEnv where
  createShader : Nat
  compileStatus : Int
  shaderInfoLog : String

/-- `Shader::Shader(src)` (lines 149-168): `.ok` is the stored handle
`id_`; `.error` carries the thrown message. -/
def ShaderCtor (env : GLShaderEnv) (_src : String) : Except String Nat :=
  let id := env.createShader
  if id = 0 then .error "failed to create shader"
  else if env.compileStatus ≠ GL_TRUE then .error env.shaderInfoLog
  else .ok id

/-- `Shader::id()` (lines 170-173): `ASSERT(id_ != 0)`, then return `id_`;
`none` models a failed assertion. -/
def Shader.id (id : Nat) : Option Nat :=
  if id ≠ 0 then some id else none

/-- The driver's responses to the calls `ShaderProgram::ShaderProgram`
makes: the handle from `dglCreateProgram`, the two member shaders'
environments, the `GL_LINK_STATUS` value from `dglGetProgramiv`, and the
log text `dglGetProgramInfoLog` writes. -/
structure GLProgramEnv where
  createProgram : Nat
  vertexEnv : GLShaderEnv
  fragmentEnv : GLShaderEnv
  linkStatus : Int
  programInfoLog : String

/-- `ShaderProgram::ShaderProgram` (lines 184-204).  Member initializers
run first in declaration order — `id_ = dglCreateProgram()`, then the
`vertex_` and `fragment_` shader members are constructed (either may
throw, propagating out of the constructor) — then the body checks
`id_ == 0`, attaches, links, and checks `GL_LINK_STATUS`. -/
def ShaderProgramCtor (env : GLProgramEnv) (vertexSrc fragmentSrc : String) :
    Except String Nat :=
  let id := env.createProgram
  match ShaderCtor env.vertexEnv vertexSrc with
  | .error e => .error e
  | .ok _vid =>
    match ShaderCtor env.fragmentEnv fragmentSrc with
    | .error e => .error e
    | .ok _fid =>
      if id = 0 then .error "error creating GL program"
      else if env.linkStatus ≠ GL_TRUE then .error env.programInfoLog
      else .ok id

/-- C10: whenever the `Shader` constructor completes without throwing, the
stored handle is nonzero, so the `ASSERT` in `Shader::id()` holds and
`id()` returns that nonzero handle. -/
theorem shader_ctor_ok_id_nonzero (env : GLShaderEnv) (src : String) (i : Nat)
    (h : ShaderCtor env src = .ok i) :
    i ≠ 0 ∧ Shader.id i = some i := by
  simp only [ShaderCtor] at h
  split at h
  · exact absurd h (by simp)
  · split at h
    · exact absurd h (by simp)
    · rename_i h0 _
      simp only [Except.ok.injEq] at h
      subst h
      exact ⟨h0, by simp [Shader.id, h0]⟩

theorem shader_ctor_ok_id_nonzero_witness :
    (7 : Nat) ≠ 0 ∧ Shader.id 7 = some 7 :=
  shader_ctor_ok_id_nonzero ⟨7, 1, ""⟩ "src" 7 rfl

/-- C3 counterexample: on zero-handle shader allocation the thrown message
is the fixed string `"failed to create shader"`, not the driver's
diagnostic log text (here `"driver diagnostic log"`), refuting the claim
that every failure's message is the driver's log text. -/
theorem zero_handle_message_not_driver_log :
    ShaderCtor ⟨0, 0, "driver diagnostic log"⟩ "src"
      = .error "failed to create shader"
    ∧ "failed to create shader" ≠ "driver diagnostic log" := by
  exact ⟨rfl, by decide⟩

/-- C3 (amended): each of the failure conditions throws, with no recovery
or retry path; shader compile failures and program link failures carry
the driver's info-log text, while zero-handle allocation throws the fixed
messages `"failed to create shader"` / `"error creating GL program"` and
a missing uniform throws `"uniform <name> nonexistent or inactive"`. -/
theorem failure_paths_messages (senv : GLShaderEnv) (penv : GLProgramEnv)
    (uenv : GLUniformEnv) (cache : UniformCache) (src vsrc fsrc name : String) :
    (senv.createShader = 0 → ShaderCtor senv src = .error "failed to create shader")
    ∧ (senv.createShader ≠ 0 → senv.compileStatus ≠ GL_TRUE →
        ShaderCtor senv src = .error senv.shaderInfoLog)
    ∧ ((ShaderCtor penv.vertexEnv vsrc).isOk = true →
        (ShaderCtor penv.fragmentEnv fsrc).isOk = true →
        penv.createProgram = 0 →
        ShaderProgramCtor penv vsrc fsrc = .error "error creating GL program")
    ∧ ((ShaderCtor penv.vertexEnv vsrc).isOk = true →
        (ShaderCtor penv.fragmentEnv fsrc).isOk = true →
        penv.createProgram ≠ 0 → penv.linkStatus ≠ GL_TRUE →
        ShaderProgramCtor penv vsrc fsrc = .error penv.programInfoLog)
    ∧ (cacheFind cache name = none → uenv.getUniformLocation name = -1 →
        (getUniformId uenv cache name).result
          = .error ("uniform " ++ name ++ " nonexistent or inactive")) := by
  refine ⟨?_, ?_, ?_, ?_, ?_⟩
  · intro h0
    simp [ShaderCtor, h0]
  · intro h0 hc
    simp [ShaderCtor, h0, hc]
  · intro hv hf h0
    rcases hxv : ShaderCtor penv.vertexEnv vsrc with ev | v
    · rw [hxv] at hv
      simp [Except.isOk, Except.toBool] at hv
    · rcases hxf : ShaderCtor penv.fragmentEnv fsrc with ef | f
      · rw [hxf] at hf
        simp [Except.isOk, Except.toBool] at hf
      · simp [ShaderProgramCtor, hxv, hxf, h0]
  · intro hv hf h0 hl
    rcases hxv : ShaderCtor penv.vertexEnv vsrc with ev | v
    · rw [hxv] at hv
      simp [Except.isOk, Except.toBool] at hv
    · rcases hxf : ShaderCtor penv.fragmentEnv fsrc with ef | f
      · rw [hxf] at hf
        simp [Except.isOk, Except.toBool] at hf
      · simp [ShaderProgramCtor, hxv, hxf, h0, hl]
  · intro hmiss habs
    rw [getUniformId_miss_absent uenv cache name hmiss habs]

theorem failure_paths_messages_witness :
    ShaderCtor ⟨0, 1, "slog"⟩ "src" = .error "failed to create shader"
    ∧ ShaderCtor ⟨5, 0, "compile log"⟩ "src" = .error "compile log"
    ∧ ShaderProgramCtor ⟨0, ⟨1, 1, ""⟩, ⟨2, 1, ""⟩, 1, "plog"⟩ "vs" "fs"
        = .error "error creating GL program"
    ∧ ShaderProgramCtor ⟨3, ⟨1, 1, ""⟩, ⟨2, 1, ""⟩, 0, "link log"⟩ "vs" "fs"
        = .error "link log"
    ∧ (getUniformId constAbsent [] "u").result
        = .error "uniform u nonexistent or inactive" :=
  ⟨(failure_paths_messages ⟨0, 1, "slog"⟩ ⟨0, ⟨1, 1, ""⟩, ⟨2, 1, ""⟩, 1, "plog"⟩
      constAbsent [] "src" "vs" "fs" "u").1 rfl,
   (failure_paths_messages ⟨5, 0, "compile log"⟩ ⟨0, ⟨1, 1, ""⟩, ⟨2, 1, ""⟩, 1, "plog"⟩
      constAbsent [] "src" "vs" "fs" "u").2.1 (by decide) (by decide),
   (failure_paths_messages ⟨5, 0, ""⟩ ⟨0, ⟨1, 1, ""⟩, ⟨2, 1, ""⟩, 1, "plog"⟩
      constAbsent [] "src" "vs" "fs" "u").2.2.1 (by decide) (by decide) rfl,
   (failure_paths_messages ⟨5, 0, ""⟩ ⟨3, ⟨1, 1, ""⟩, ⟨2, 1, ""⟩, 0, "link log"⟩
      constAbsent [] "src" "vs" "fs" "u").2.2.2.1 (by decide) (by decide)
      (by decide) (by decide),
   (failure_paths_messages ⟨5, 0, ""⟩ ⟨3, ⟨1, 1, ""⟩, ⟨2, 1, ""⟩, 0, ""⟩
      constAbsent [] "src" "vs" "fs" "u").2.2.2.2 rfl rfl⟩

end ShaderProgramH

namespace ShaderProgramH

/-! ## GPU object deletion and wrapper destruction (lines 93-107, 176-179, 251-253)

The static deleter members below are translated from `src/`.  The holder
that invokes them, `MoveOnlyHolder<GLuint, Deleter>` from `holder.h`, is
not part of `src/`, so its behaviour is modelled from the spec. -/

/-- A driver object-deletion call. -/
inductive GLDeleteCall where
  | deleteShader (id : Nat)
  | deleteBuffers (id : Nat)
  | deleteVertexArrays (id : Nat)
  | deleteProgram (id : Nat)
  deriving Repr, DecidableEq

/-- `Shader::DeleteShader` (lines 176-178): `dglDeleteShader(id)`. -/
def Shader.DeleteShader (id : Nat) : List GLDeleteCall := [.deleteShader id]

/-- `VertexBuffer::DeleteBuffer` (lines 93-95): `dglDeleteBuffers(1, &id)`. -/
def VertexBuffer.DeleteBuffer (id : Nat) : List GLDeleteCall := [.deleteBuffers id]

/-- `VertexBuffer::DeleteVertexArray` (lines 96-98):
`dglDeleteVertexArrays(1, &id)`. -/
def VertexBuffer.DeleteVertexArray (id : Nat) : List GLDeleteCall :=
  [.deleteVertexArrays id]

/-- `ShaderProgram::DeleteProgram` (lines 251-253): `dglDeleteProgram(id)`. -/
def ShaderProgram.DeleteProgram (id : Nat) : List GLDeleteCall := [.deleteProgram id]

/-- A point in a C++ object's lifetime. -/
inductive Phase where
  | construct
  | alive
  | destroy
  deriving Repr, DecidableEq

/-- Modelled from the spec: `MoveOnlyHolder<GLuint, Deleter>` (from
`holder.h`, which is not under `src/`).  Per the spec it ties GPU object
deletion to C++ object destruction ("owns a native handle; destroyed when
the wrapper is destroyed"), so a holder emits no deletion call at
construction or while its owner is alive, and invokes its deleter on the
held handle exactly when the owner is destroyed. -/
def holderCalls (deleter : Nat → List GLDeleteCall) (id : Nat) :
    Phase → List GLDeleteCall
  | .construct => []
  | .alive => []
  | .destroy => deleter id

/-- Deletion calls the `Shader` wrapper emits in each lifetime phase (its
only holder is `id_` with deleter `DeleteShader`). -/
def shaderCalls (id : Nat) : Phase → List GLDeleteCall :=
  holderCalls Shader.DeleteShader id

/-- Deletion calls the `VertexBuffer` wrapper emits in each lifetime phase
(holders `vao_` and `vbo_`; members are destroyed in reverse declaration
order, so `vbo_` goes before `vao_`). -/
def vertexBufferCalls (vao vbo : Nat) (p : Phase) : List GLDeleteCall :=
  holderCalls VertexBuffer.DeleteBuffer vbo p
    ++ holderCalls VertexBuffer.DeleteVertexArray vao p

/-- Deletion calls the `ShaderProgram` wrapper emits in each lifetime
phase (members destroyed in reverse declaration order: `vbo_`,
`fragment_`, `vertex_`, then its own `id_` holder). -/
def shaderProgramCalls (pid vid fid vao vbo : Nat) (p : Phase) :
    List GLDeleteCall :=
  vertexBufferCalls vao vbo p ++ shaderCalls fid p ++ shaderCalls vid p
    ++ holderCalls ShaderProgram.DeleteProgram pid p

/-- A wrapper's lifetime: constructed, alive for `n` steps, destroyed. -/
def lifetime (n : Nat) : List Phase :=
  Phase.construct :: (List.replicate n Phase.alive ++ [Phase.destroy])

/-- All deletion calls a wrapper emits over its whole lifetime. -/
def lifetimeTrace (calls : Phase → List GLDeleteCall) (n : Nat) :
    List GLDeleteCall :=
  ((lifetime n).map calls).flatten

theorem lifetimeTrace_eq_destroy (calls : Phase → List GLDeleteCall) (n : Nat)
    (hc : calls .construct = []) (ha : calls .alive = []) :
    lifetimeTrace calls n = calls .destroy := by
  unfold lifetimeTrace lifetime
  induction n with
  | zero => simp [hc]
  | succ n ih => simp [List.replicate_succ, hc, ha] at ih ⊢

end ShaderProgramH

namespace ShaderProgramH

/-- C7 (with the holder's RAII behaviour modelled from the spec): for each
native handle owned by `Shader` (`id_`), `VertexBuffer` (`vao_` and
`vbo_`) and `ShaderProgram` (`id_`, its two shaders and its vertex
buffer), the corresponding driver delete call appears exactly once in the
owning wrapper's lifetime trace — at destruction — and no phase other
than destruction emits any deletion call. -/
theorem deletion_at_destruction (n sid vao vbo pid vid fid : Nat)
    (hvf : vid ≠ fid) :
    ((lifetimeTrace (shaderCalls sid) n).count (.deleteShader sid) = 1
      ∧ ∀ p, p ≠ Phase.destroy → shaderCalls sid p = [])
    ∧ ((lifetimeTrace (vertexBufferCalls vao vbo) n).count
          (.deleteVertexArrays vao) = 1
      ∧ (lifetimeTrace (vertexBufferCalls vao vbo) n).count (.deleteBuffers vbo) = 1
      ∧ ∀ p, p ≠ Phase.destroy → vertexBufferCalls vao vbo p = [])
    ∧ ((lifetimeTrace (shaderProgramCalls pid vid fid vao vbo) n).count
          (.deleteProgram pid) = 1
      ∧ (lifetimeTrace (shaderProgramCalls pid vid fid vao vbo) n).count
          (.deleteShader vid) = 1
      ∧ (lifetimeTrace (shaderProgramCalls pid vid fid vao vbo) n).count
          (.deleteShader fid) = 1
      ∧ (lifetimeTrace (shaderProgramCalls pid vid fid vao vbo) n).count
          (.deleteVertexArrays vao) = 1
      ∧ (lifetimeTrace (shaderProgramCalls pid vid fid vao vbo) n).count
          (.deleteBuffers vbo) = 1
      ∧ ∀ p, p ≠ Phase.destroy → shaderProgramCalls pid vid fid vao vbo p = []) := by
  have hvf' : fid ≠ vid := Ne.symm hvf
  have hS := lifetimeTrace_eq_destroy (shaderCalls sid) n rfl rfl
  have hV := lifetimeTrace_eq_destroy (vertexBufferCalls vao vbo) n rfl rfl
  have hP := lifetimeTrace_eq_destroy (shaderProgramCalls pid vid fid vao vbo) n
    rfl rfl
  refine ⟨⟨?_, ?_⟩, ⟨?_, ?_, ?_⟩, ⟨?_, ?_, ?_, ?_, ?_, ?_⟩⟩
  · rw [hS]
    simp [shaderCalls, holderCalls, Shader.DeleteShader]
  · intro p hp
    cases p
    · rfl
    · rfl
    · exact absurd rfl hp
  · rw [hV]
    simp [vertexBufferCalls, holderCalls, VertexBuffer.DeleteBuffer,
      VertexBuffer.DeleteVertexArray]
  · rw [hV]
    simp [vertexBufferCalls, holderCalls, VertexBuffer.DeleteBuffer,
      VertexBuffer.DeleteVertexArray]
  · intro p hp
    cases p
    · rfl
    · rfl
    · exact absurd rfl hp
  · rw [hP]
    simp [shaderProgramCalls, vertexBufferCalls, shaderCalls, holderCalls,
      Shader.DeleteShader, VertexBuffer.DeleteBuffer,
      VertexBuffer.DeleteVertexArray, ShaderProgram.DeleteProgram]
  · rw [hP]
    simp [shaderProgramCalls, vertexBufferCalls, shaderCalls, holderCalls,
      Shader.DeleteShader, VertexBuffer.DeleteBuffer,
      VertexBuffer.DeleteVertexArray, ShaderProgram.DeleteProgram,
      List.count_cons, hvf']
  · rw [hP]
    simp [shaderProgramCalls, vertexBufferCalls, shaderCalls, holderCalls,
      Shader.DeleteShader, VertexBuffer.DeleteBuffer,
      VertexBuffer.DeleteVertexArray, ShaderProgram.DeleteProgram,
      List.count_cons, hvf]
  · rw [hP]
    simp [shaderProgramCalls, vertexBufferCalls, shaderCalls, holderCalls,
      Shader.DeleteShader, VertexBuffer.DeleteBuffer,
      VertexBuffer.DeleteVertexArray, ShaderProgram.DeleteProgram]
  · rw [hP]
    simp [shaderProgramCalls, vertexBufferCalls, shaderCalls, holderCalls,
      Shader.DeleteShader, VertexBuffer.DeleteBuffer,
      VertexBuffer.DeleteVertexArray, ShaderProgram.DeleteProgram]
  · intro p hp
    cases p
    · rfl
    · rfl
    · exact absurd rfl hp

theorem deletion_at_destruction_witness :
    (lifetimeTrace (shaderCalls 1) 2).count (.deleteShader 1) = 1
    ∧ (lifetimeTrace (shaderProgramCalls 10 11 12 13 14) 2).count
        (.deleteShader 11) = 1
    ∧ shaderCalls 1 Phase.alive = []
    ∧ shaderProgramCalls 10 11 12 13 14 Phase.construct = [] :=
  ⟨(deletion_at_destruction 2 1 13 14 10 11 12 (by decide)).1.1,
   (deletion_at_destruction 2 1 13 14 10 11 12 (by decide)).2.2.2.1,
   (deletion_at_destruction 2 1 13 14 10 11 12 (by decide)).1.2 Phase.alive
     (by decide),
   (deletion_at_destruction 2 1 13 14 10 11 12 (by decide)).2.2.2.2.2.2.2
     Phase.construct (by decide)⟩

end ShaderProgramH
